import Mathlib

/-!
Verification development for `pl_dalle/models/vqgan.py` and
`pl_dalle/models/vqvae.py`: shallow embedding of the training-step /
validation-step control flow, the Gumbel temperature annealing state, the
codebook-index utilities and the constructor attribute environment, with
theorems checking the specification's statements against the code.
-/

namespace DalleLightning

/-- Python-level errors raised by the modelled code paths. -/
inductive PyError where
  | attributeError (attr : String)
  | typeError (msg : String)
  | notImplementedError
  | einopsError
  deriving DecidableEq, Repr

/-! ### Gumbel temperature state

`GumbelVQGAN` (vqgan.py lines 194-196, 204-209, 231-234) and `GumbelVQVAE`
(vqvae.py lines 173-177, 187-190) keep a module-level scalar
`self.temperature` and mirror it into `self.quantize.temperature`, the value
the quantizer's sampling actually reads during a forward pass. -/

structure GumbelState where
  /-- `self.temperature` on the Lightning module. -/
  temperature : ℝ
  /-- `self.quantize.temperature`, read by the quantizer during forward. -/
  quantTemp : ℝ

/-- vqgan.py lines 206-209 (identical in vqvae.py lines 175-177): the
pre-forward phase of a Gumbel training step.
`self.temperature = max(self.temperature * math.exp(-self.anneal_rate * self.global_step), self.temp_min)`
then `self.quantize.temperature = self.temperature`; the second component is
the quantizer temperature in effect when `self(x)` then runs. -/
noncomputable def gumbelTrainingStepTemp (annealRate tempMin : ℝ)
    (s : GumbelState) (globalStep : ℕ) : GumbelState × ℝ :=
  let t := max (s.temperature * Real.exp (-annealRate * globalStep)) tempMin
  (⟨t, t⟩, t)

/-- Iterate `gumbelTrainingStepTemp` over a list of `global_step` values, one
per training-step invocation, returning the final state. -/
noncomputable def gumbelTrainTempTrace (annealRate tempMin : ℝ)
    (s : GumbelState) : List ℕ → GumbelState
  | [] => s
  | step :: rest =>
      gumbelTrainTempTrace annealRate tempMin
        (gumbelTrainingStepTemp annealRate tempMin s step).1 rest

/-- The decay formula as the spec words it: temperature at a given global step
is `max(initial_temperature * exp(-anneal_rate * global_step), temp_min)`,
computed from the initial temperature. Stated for comparison with the code's
update, which multiplies the current temperature instead. -/
noncomputable def specDecayTemp (initialTemperature annealRate tempMin : ℝ)
    (globalStep : ℕ) : ℝ :=
  max (initialTemperature * Real.exp (-annealRate * globalStep)) tempMin

/-- vqgan.py lines 231-234, `GumbelVQGAN.validation_step`: sets
`self.quantize.temperature = 1.0` and then runs the forward pass; the second
component is the quantizer temperature the forward pass observes. -/
def gumbelVQGANValidationTemp (s : GumbelState) : GumbelState × ℝ :=
  ({ s with quantTemp := 1 }, 1)

/-- vqvae.py lines 187-190, `GumbelVQVAE.validation_step`: runs the forward
pass `xrec, qloss = self(x)` first and only afterwards executes
`self.quantize.temperature = 1.0`; the second component is the quantizer
temperature the forward pass observes (the stale value already in place). -/
def gumbelVQVAEValidationTemp (s : GumbelState) : GumbelState × ℝ :=
  ({ s with quantTemp := 1 }, s.quantTemp)

/-- Claim C1 counterexample: running the Gumbel training-step temperature
update at consecutive global steps 0, 1, 2 (initial temperature 1, anneal
rate 1, temp_min 0) leaves temperature `exp (-3)`, not the spec formula's
`max (1 * exp (-2), 0) = exp (-2)`: the code compounds the decay factor onto
the current temperature rather than recomputing from the initial one. -/
theorem gumbelTemp_trace_ne_specDecayTemp :
    (gumbelTrainTempTrace 1 0 ⟨1, 1⟩ [0, 1, 2]).temperature ≠
      specDecayTemp 1 1 0 2 := by
  have key : (gumbelTrainTempTrace 1 0 ⟨1, 1⟩ [0, 1, 2]).temperature
      = Real.exp (-3) := by
    simp only [gumbelTrainTempTrace, gumbelTrainingStepTemp]
    push_cast
    norm_num [Real.exp_zero]
    rw [max_eq_left (Real.exp_pos _).le]
    rw [← Real.exp_add]
    rw [max_eq_left (Real.exp_pos _).le]
    norm_num
  have spec : specDecayTemp 1 1 0 2 = Real.exp (-2) := by
    simp only [specDecayTemp]
    push_cast
    norm_num
    positivity
  rw [key, spec]
  exact ne_of_lt (Real.exp_lt_exp.mpr (by norm_num))

/-- Running a temperature trace over an appended step list composes. -/
theorem gumbelTrainTempTrace_append (rate tmin : ℝ) (s : GumbelState)
    (l1 l2 : List ℕ) :
    gumbelTrainTempTrace rate tmin s (l1 ++ l2)
      = gumbelTrainTempTrace rate tmin (gumbelTrainTempTrace rate tmin s l1) l2 := by
  induction l1 generalizing s with
  | nil => rfl
  | cons a tl ih =>
      simp only [List.cons_append, gumbelTrainTempTrace]
      exact ih _

/-- Claim C1 (amended): at every training step the Gumbel variants set the
quantizer's live temperature, before the forward pass, to
max(current_temperature · exp(−anneal_rate · global_step), temp_min): the
decay compounds on the current temperature rather than being recomputed from
the initial temperature. Hence over consecutive steps 0..m−1 with no clamping
(temp_min ≤ 0) the temperature is initial · exp(−anneal_rate · m(m−1)/2),
and a single step at global_step = 10^9 with anneal_rate 1e−4, temp_min 0.1
and any current temperature in (0, 1] yields exactly temp_min. -/
theorem gumbelTemp_compounding_decay (rate tmin init q t q2 : ℝ)
    (s : GumbelState) (n m : ℕ)
    (hinit : 0 < init) (htmin : tmin ≤ 0) (ht0 : 0 < t) (ht1 : t ≤ 1) :
    ((gumbelTrainingStepTemp rate tmin s n).2
        = max (s.temperature * Real.exp (-rate * n)) tmin
      ∧ (gumbelTrainingStepTemp rate tmin s n).1.quantTemp
        = (gumbelTrainingStepTemp rate tmin s n).2)
    ∧ (gumbelTrainTempTrace rate tmin ⟨init, q⟩ (List.range m)).temperature
        = init * Real.exp (-(rate * (m * (m - 1)) / 2))
    ∧ (gumbelTrainingStepTemp (1/10000) (1/10) ⟨t, q2⟩ (10 ^ 9)).2 = 1/10 := by
  refine ⟨⟨rfl, rfl⟩, ?_, ?_⟩
  · induction m with
    | zero => norm_num [gumbelTrainTempTrace, Real.exp_zero]
    | succ k ih =>
        rw [List.range_succ, gumbelTrainTempTrace_append]
        simp only [gumbelTrainTempTrace, gumbelTrainingStepTemp]
        rw [ih]
        have hpos : 0 < init * Real.exp (-(rate * (k * (k - 1)) / 2))
            * Real.exp (-rate * k) := by positivity
        rw [max_eq_left (le_trans htmin hpos.le)]
        rw [mul_assoc, ← Real.exp_add]
        congr 1
        push_cast
        ring
  · have hE : (100001:ℝ) ≤ Real.exp 100000 := by
      have h := Real.add_one_le_exp (100000:ℝ)
      linarith
    have h1 : Real.exp (-(100000:ℝ)) ≤ 1/100001 := by
      rw [Real.exp_neg, inv_eq_one_div]
      exact one_div_le_one_div_of_le (by norm_num) hE
    have hcast : (-(1/10000:ℝ) * ((10 ^ 9 : ℕ):ℝ)) = -(100000:ℝ) := by
      push_cast
      norm_num
    simp only [gumbelTrainingStepTemp]
    rw [hcast]
    apply max_eq_right
    calc t * Real.exp (-(100000:ℝ)) ≤ 1 * (1/100001) :=
          mul_le_mul ht1 h1 (Real.exp_pos _).le (by norm_num)
      _ ≤ 1/10 := by norm_num

/-- Claim C1 witness: instantiating the amended statement at anneal_rate 1,
temp_min 0, initial temperature 1, over the consecutive steps 0, 1, 2. -/
theorem gumbelTemp_compounding_decay_witness :
    (gumbelTrainTempTrace 1 0 ⟨1, 1⟩ (List.range 3)).temperature
      = 1 * Real.exp (-(1 * (((3:ℕ):ℝ) * (((3:ℕ):ℝ) - 1)) / 2)) :=
  (gumbelTemp_compounding_decay 1 0 1 1 1 1 ⟨1, 1⟩ 0 3
    one_pos le_rfl one_pos le_rfl).2.1

/-- Claim C3: `GumbelVQGAN.validation_step` does force the quantizer
temperature to 1.0 before its forward pass, but `GumbelVQVAE.validation_step`
runs the forward pass first and only then writes 1.0, so that forward pass
observes the stale training-time temperature (here 1/2), not 1.0. -/
theorem gumbelVQVAE_validation_forward_stale_temp :
    (gumbelVQGANValidationTemp ⟨1/2, 1/2⟩).2 = 1
    ∧ (gumbelVQVAEValidationTemp ⟨1/2, 1/2⟩).2 = 1/2
    ∧ (gumbelVQVAEValidationTemp ⟨1/2, 1/2⟩).2 ≠ 1 := by
  refine ⟨rfl, rfl, ?_⟩
  simp only [gumbelVQVAEValidationTemp]
  norm_num

/-! ### Training-step control flow (vqgan.py lines 86-109 and 204-228)

`VQGAN.training_step(batch, batch_idx, optimizer_idx)` runs
`xrec, qloss = self(x)` unconditionally and then enters the branch selected
by `optimizer_idx`. The pytorch_lightning driver (not part of src/) invokes
`training_step` once per optimizer index for each batch. -/

inductive TrainOp where
  /-- the autoencoder forward pass `self(x)` (encode + quantize + decode) -/
  | forwardPass
  /-- `self.loss(...)` called with optimizer index 0 (autoencoder mode) -/
  | aeLossCalc
  /-- `self.loss(...)` called with optimizer index 1 (discriminator mode) -/
  | discLossCalc
  deriving DecidableEq, BEq, Repr

/-- vqgan.py lines 86-109 (same shape at 204-228): the operations one
invocation of `training_step` performs, in order, for a given
`optimizer_idx`. -/
def vqganTrainingStepOps (optimizerIdx : ℕ) : List TrainOp :=
  [TrainOp.forwardPass]
    ++ (if optimizerIdx = 0 then [TrainOp.aeLossCalc] else [])
    ++ (if optimizerIdx = 1 then [TrainOp.discLossCalc] else [])

/-- Modelled from the spec: the external training-loop driver (the
pytorch_lightning trainer, not part of src/) runs "two phases per batch
(index 0 = autoencoder, index 1 = discriminator), invoked by an external
training-loop driver that supplies `phase`", i.e. it calls `training_step`
once with optimizer index 0 and once with optimizer index 1 per batch. -/
def vqganBatchOps : List TrainOp :=
  vqganTrainingStepOps 0 ++ vqganTrainingStepOps 1

/-- Claim C2 counterexample: over one batch the autoencoder forward pass
executes twice (once in each per-phase invocation of `training_step`), not
exactly once as the spec's ordering guarantee states. -/
theorem vqganBatch_forward_runs_twice :
    vqganBatchOps.count TrainOp.forwardPass = 2
      ∧ vqganBatchOps.count TrainOp.forwardPass ≠ 1 := by
  constructor <;> decide

/-- Claim C2 (amended): within each single invocation of `training_step` the
forward pass executes exactly once, as the invocation's first operation,
before that phase's loss computation; but the driver invokes `training_step`
once per optimizer phase, so over one batch the forward pass executes twice —
each phase recomputes it rather than sharing one result. -/
theorem vqgan_forward_once_per_invocation (optimizerIdx : ℕ) :
    (vqganTrainingStepOps optimizerIdx).count TrainOp.forwardPass = 1
    ∧ (vqganTrainingStepOps optimizerIdx).head? = some TrainOp.forwardPass
    ∧ vqganBatchOps.count TrainOp.forwardPass = 2 := by
  refine ⟨?_, ?_, by decide⟩
  · by_cases h0 : optimizerIdx = 0
    · subst h0
      decide
    · by_cases h1 : optimizerIdx = 1
      · subst h1
        decide
      · simp only [vqganTrainingStepOps, if_neg h0, if_neg h1, List.append_nil]
        decide
  · simp [vqganTrainingStepOps]

/-! ### Loss routing in VQGAN.training_step (vqgan.py lines 86-109)

The Python body assigns the local `loss` in the `optimizer_idx == 0` branch
(`loss = aeloss + qloss`) and in the `optimizer_idx == 1` branch
(`loss = discloss`) and returns it; with any other index `loss` is unbound
(`none` here). `compositeLoss i` abstracts the scalar of
`self.loss(qloss, x, xrec, i, self.global_step, ...)`, whose mode is selected
by the optimizer index passed to it. -/

def vqganTrainingStepLoss (compositeLoss : ℕ → ℚ) (qloss : ℚ)
    (optimizerIdx : ℕ) : Option ℚ :=
  let loss0 : Option ℚ := none
  let loss1 : Option ℚ :=
    if optimizerIdx = 0 then some (compositeLoss 0 + qloss) else loss0
  let loss2 : Option ℚ :=
    if optimizerIdx = 1 then some (compositeLoss 1) else loss1
  loss2

/-- Claim C4: in `VQGAN.training_step`, with optimizer index 0 the returned
loss is the autoencoder-mode composite loss plus the quantization loss, and
with optimizer index 1 it is the discriminator-mode composite loss alone,
with the quantization loss not added. -/
theorem vqganTrainingStepLoss_routing (compositeLoss : ℕ → ℚ) (qloss : ℚ) :
    vqganTrainingStepLoss compositeLoss qloss 0
        = some (compositeLoss 0 + qloss)
    ∧ vqganTrainingStepLoss compositeLoss qloss 1 = some (compositeLoss 1) := by
  constructor <;> simp [vqganTrainingStepLoss]

/-! ### get_codebook_indices (vqgan.py lines 72-79, vqvae.py lines 76-81) -/

/-- `torch.Tensor.view(b, n)` applied to a flat index tensor, with
`n = len // b` as computed at vqgan.py line 77; `view` succeeds only when
`b * n` equals the number of elements. -/
def tensorView2 (b : ℕ) (xs : List ℕ) : Option (List (List ℕ)) :=
  let n := xs.length / b
  if b * n = xs.length then
    some ((List.range b).map fun i => (xs.drop (i * n)).take n)
  else none

structure CodebookIndicesResult where
  /-- whether gradient tracking is enabled inside the call
  (`@torch.no_grad()` wraps the whole method) -/
  gradEnabled : Bool
  /-- the tensor actually passed to `self.encode` -/
  encoderInput : List ℚ
  /-- the reshaped `(b, n)` index grid, `none` on a reshape error -/
  output : Option (List (List ℕ))

/-- vqgan.py lines 72-79, `VQGAN.get_codebook_indices`: inside
`@torch.no_grad()`, rescale `img = (2 * img) - 1` elementwise, run
`self.encode` on it, take the flat index tensor from the returned info, and
reshape it with `indices.view(b, indices.shape[0] // b)`. `encodeIndices`
abstracts the flat per-position index tensor produced by `self.encode`. -/
def vqganGetCodebookIndices (b : ℕ) (img : List ℚ)
    (encodeIndices : List ℚ → List ℕ) : CodebookIndicesResult :=
  let scaled := img.map fun x => 2 * x - 1
  let indices := encodeIndices scaled
  ⟨false, scaled, tensorView2 b indices⟩

/-- Attributes bound on a `VQVAE` instance by `VQVAE.__init__`
(vqvae.py lines 13-48): `args`, the networks, the quantizer, the projections,
the normalization tuple and the loss flag; `monitor` only when a non-None
monitor argument is supplied. No attribute named `model` and no attribute
named `loss` is ever bound. -/
def vqvaeInstanceAttrs (monitorSet : Bool) : List String :=
  ["args", "encoder", "decoder", "normalization", "smooth_l1_loss",
   "quantize", "quant_conv", "post_quant_conv"]
    ++ if monitorSet then ["monitor"] else []

/-- Python attribute lookup on a `VQVAE` instance: `AttributeError` when the
name was never bound. -/
def vqvaeGetattr (monitorSet : Bool) (name : String) : Except PyError String :=
  if name ∈ vqvaeInstanceAttrs monitorSet then Except.ok name
  else Except.error (PyError.attributeError name)

/-- vqvae.py lines 76-81, `VQVAE.get_codebook_indices`: line 80 dereferences
`self.model`, an attribute `VQVAE.__init__` never binds, so the lookup raises
`AttributeError` before the encode and the rearrange can run. -/
def vqvaeGetCodebookIndices (monitorSet : Bool) (b : ℕ) (img : List ℚ) :
    Except PyError (List (List ℕ)) := do
  let scaled := img.map fun x => 2 * x - 1
  let _model ← vqvaeGetattr monitorSet "model"
  -- unreachable continuation: `self.model.encode(img)` and the rearrange
  let _ := (b, scaled)
  Except.ok []

/-- Claim C5 theorem: `VQGAN.get_codebook_indices` behaves as claimed — input
rescaled by x ↦ 2·x − 1, encode run with gradients disabled, flat indices
reshaped to `(b, t)` rows whenever the encoder yields `b * t` indices (so a
4-image batch with a 32×32 feature grid yields shape (4, 1024)) — but
`VQVAE.get_codebook_indices` instead raises `AttributeError` on every call,
because it dereferences the never-bound attribute `self.model`. -/
theorem getCodebookIndices_shape_and_vqvae_attr_error (b t : ℕ) (img : List ℚ)
    (encodeIndices : List ℚ → List ℕ) (monitorSet : Bool)
    (hb : 0 < b)
    (hlen : (encodeIndices (img.map fun x => 2 * x - 1)).length = b * t) :
    (vqganGetCodebookIndices b img encodeIndices).gradEnabled = false
    ∧ (vqganGetCodebookIndices b img encodeIndices).encoderInput
        = img.map (fun x => 2 * x - 1)
    ∧ (∃ rows, (vqganGetCodebookIndices b img encodeIndices).output = some rows
        ∧ rows.length = b ∧ ∀ r ∈ rows, r.length = t)
    ∧ vqvaeGetCodebookIndices monitorSet b img
        = Except.error (PyError.attributeError "model") := by
  refine ⟨rfl, rfl, ?_, ?_⟩
  · simp only [vqganGetCodebookIndices, tensorView2, hlen,
      Nat.mul_div_cancel_left t hb, if_pos rfl]
    refine ⟨_, rfl, by simp, ?_⟩
    intro r hr
    simp only [List.mem_map, List.mem_range] at hr
    obtain ⟨i, hi, rfl⟩ := hr
    rw [List.length_take, List.length_drop, hlen]
    have : t ≤ b * t - i * t := by
      rw [← Nat.sub_mul]
      exact Nat.le_mul_of_pos_left t (by omega)
    omega
  · cases monitorSet <;> rfl

/-- Claim C5 witness: a 4-image batch whose encoder output is a flat list of
4096 indices (a 32×32 grid per image) reshapes to 4 rows of 1024 tokens, the
encoder input is the rescaled image, gradients are off, and the `VQVAE`
version raises `AttributeError` on the same input. -/
theorem getCodebookIndices_shape_witness :
    ((fun _ => List.replicate 4096 0 : List ℚ → List ℕ)
        (([(1:ℚ)/2, 1/2, 1/2] : List ℚ).map fun x => 2 * x - 1)).length
      = 4 * 1024
    ∧ ((vqganGetCodebookIndices 4 [(1:ℚ)/2, 1/2, 1/2]
          (fun _ => List.replicate 4096 0)).gradEnabled = false
      ∧ (vqganGetCodebookIndices 4 [(1:ℚ)/2, 1/2, 1/2]
          (fun _ => List.replicate 4096 0)).encoderInput
          = ([(1:ℚ)/2, 1/2, 1/2] : List ℚ).map (fun x => 2 * x - 1)
      ∧ (∃ rows, (vqganGetCodebookIndices 4 [(1:ℚ)/2, 1/2, 1/2]
            (fun _ => List.replicate 4096 0)).output = some rows
          ∧ rows.length = 4 ∧ ∀ r ∈ rows, r.length = 1024)
      ∧ vqvaeGetCodebookIndices false 4 [(1:ℚ)/2, 1/2, 1/2]
          = Except.error (PyError.attributeError "model")) := by
  have hlen : ((fun _ => List.replicate 4096 0 : List ℚ → List ℕ)
      (([(1:ℚ)/2, 1/2, 1/2] : List ℚ).map fun x => 2 * x - 1)).length
      = 4 * 1024 := by
    show (List.replicate 4096 (0:ℕ)).length = 4 * 1024
    rw [List.length_replicate]
  exact ⟨hlen, getCodebookIndices_shape_and_vqvae_attr_error 4 1024
    [(1:ℚ)/2, 1/2, 1/2] (fun _ => List.replicate 4096 0) false
    (by norm_num) hlen⟩

/-! ### VQGAN.decode with feed_seq=True (vqgan.py lines 58-70) -/

/-- einops `rearrange(image_embeds, 'b (h w) d -> b d h w', h=h, w=w)` for a
single image: entry (c, i, j) is component c of the (i·w + j)-th embedding. -/
def rearrangeImg (h w : ℕ) (embeds : List (List ℚ)) : List (List (List ℚ)) :=
  let d := (embeds.headD []).length
  (List.range d).map fun c =>
    (List.range h).map fun i =>
      (List.range w).map fun j => (embeds.getD (i * w + j) []).getD c 0

/-- vqgan.py lines 58-70, `VQGAN.decode` with `feed_seq=True`: every token of
`img_seq` is looked up in the codebook (`self.quantize.embedding`), then
`h = w = int(math.sqrt(n))` and the einops rearrange
`'b (h w) d -> b d h w'` runs, which raises unless `h * w = n`; on success
the grid goes through `post_quant_conv` and the decoder network, abstracted
together as `decodeGrid`. `n` is the per-image sequence length from the
unpacking `b, n, d = image_embeds.shape`. -/
def vqganDecodeSeq (embedding : ℕ → List ℚ)
    (decodeGrid : List (List (List (List ℚ))) → List ℚ)
    (imgSeq : List (List ℕ)) (n : ℕ) : Except PyError (List ℚ) :=
  let imageEmbeds := imgSeq.map fun seq => seq.map embedding
  let h := Nat.sqrt n
  if h * h = n then
    Except.ok (decodeGrid (imageEmbeds.map (rearrangeImg h h)))
  else Except.error PyError.einopsError

/-- Claim C6: `VQGAN.decode` with `feed_seq=True` looks the tokens up in the
codebook and reshapes them into a square spatial grid of side sqrt(n) when
the per-image sequence length n is a perfect square, and fails (einops shape
error) rather than producing a reconstruction when it is not. -/
theorem vqganDecodeSeq_square_or_fails (embedding : ℕ → List ℚ)
    (decodeGrid : List (List (List (List ℚ))) → List ℚ)
    (imgSeq : List (List ℕ)) (n : ℕ) :
    (∀ k : ℕ, n = k * k →
      vqganDecodeSeq embedding decodeGrid imgSeq n
        = Except.ok (decodeGrid
            ((imgSeq.map fun seq => seq.map embedding).map (rearrangeImg k k))))
    ∧ (Nat.sqrt n * Nat.sqrt n ≠ n →
      vqganDecodeSeq embedding decodeGrid imgSeq n
        = Except.error PyError.einopsError
      ∧ ∀ v, vqganDecodeSeq embedding decodeGrid imgSeq n ≠ Except.ok v) := by
  constructor
  · intro k hk
    subst hk
    simp [vqganDecodeSeq, Nat.sqrt_eq]
  · intro hsq
    have herr : vqganDecodeSeq embedding decodeGrid imgSeq n
        = Except.error PyError.einopsError := by
      simp [vqganDecodeSeq, if_neg hsq]
    exact ⟨herr, fun v hv => by rw [herr] at hv; exact Except.noConfusion hv⟩

/-- Claim C6 witness: a one-image token sequence of length 4 decodes through
a 2×2 grid, and one of length 3 (not a perfect square) raises the einops
shape error. -/
theorem vqganDecodeSeq_square_witness :
    vqganDecodeSeq (fun _ => [0]) (fun _ => []) [[0, 1, 2, 3]] 4
        = Except.ok []
    ∧ vqganDecodeSeq (fun _ => [0]) (fun _ => []) [[0, 1, 2]] 3
        = Except.error PyError.einopsError :=
  ⟨(vqganDecodeSeq_square_or_fails (fun _ => [0]) (fun _ => [])
      [[0, 1, 2, 3]] 4).1 2 (by norm_num),
   ((vqganDecodeSeq_square_or_fails (fun _ => [0]) (fun _ => [])
      [[0, 1, 2]] 3).2 (by
        have h1 : 1 ≤ Nat.sqrt 3 := Nat.le_sqrt.mpr (by norm_num)
        have h2 : Nat.sqrt 3 < 2 := Nat.sqrt_lt.mpr (by norm_num)
        have h3 : Nat.sqrt 3 = 1 := by omega
        rw [h3]
        norm_num)).1⟩

/-! ### Name-matching weight initialization (vqgan.py lines 45-49) -/

inductive InitAction where
  | orthogonal
  | kaimingNormal
  | untouched
  deriving DecidableEq, Repr

/-- vqgan.py lines 46-49, the loop body for one named parameter:
`if name in ['weight']: nn.init.orthogonal_(p) elif name in ['bias']: nn.init.kaiming_normal_(p)`,
any other name left untouched. -/
def vqganInitAction (name : String) : InitAction :=
  if name ∈ ["weight"] then InitAction.orthogonal
  else if name ∈ ["bias"] then InitAction.kaimingNormal
  else InitAction.untouched

/-- vqgan.py line 45: `for name, p in self.named_parameters():` applies the
action to every leaf parameter, keyed only by its yielded name. -/
def vqganInitLoop (params : List String) : List (String × InitAction) :=
  params.map fun name => (name, vqganInitAction name)

/-- Claim C7: at VQGAN construction, a parameter receives orthogonal
initialization exactly when its yielded name is `"weight"`, Kaiming
initialization exactly when it is `"bias"`, and is otherwise untouched; the
name-matching policy is applied uniformly to every entry of the
named-parameter iteration, regardless of layer type. -/
theorem vqganInit_name_policy (params : List String) (name : String)
    (act : InitAction) (hmem : (name, act) ∈ vqganInitLoop params) :
    (act = InitAction.orthogonal ↔ name = "weight")
    ∧ (act = InitAction.kaimingNormal ↔ name = "bias")
    ∧ (act = InitAction.untouched ↔ (name ≠ "weight" ∧ name ≠ "bias")) := by
  simp only [vqganInitLoop, List.mem_map] at hmem
  obtain ⟨nm, _hnm, heq⟩ := hmem
  cases heq
  by_cases hw : name = "weight"
  · subst hw
    decide
  · by_cases hb : name = "bias"
    · subst hb
      decide
    · simp [vqganInitAction, hw, hb]

/-- Claim C7 witness: on a parameter list holding a bare `"weight"`, a bare
`"bias"` and a dotted submodule name, the entry named `"weight"` is assigned
the orthogonal action. -/
theorem vqganInit_name_policy_witness :
    (InitAction.orthogonal = InitAction.orthogonal ↔ "weight" = "weight")
    ∧ (InitAction.orthogonal = InitAction.kaimingNormal ↔ "weight" = "bias")
    ∧ (InitAction.orthogonal = InitAction.untouched
        ↔ ("weight" ≠ "weight" ∧ "weight" ≠ "bias")) :=
  vqganInit_name_policy ["weight", "bias", "encoder.conv1.weight"] "weight"
    InitAction.orthogonal (by decide)

/-! ### GumbelVQVAE.decode_code (vqvae.py lines 163-164) -/

/-- vqvae.py lines 163-164: `GumbelVQVAE.decode_code` unconditionally
executes `raise NotImplementedError`. -/
def gumbelVQVAEDecodeCode (codeB : List ℕ) : Except PyError (List ℚ) :=
  Except.error PyError.notImplementedError

/-- Claim C8: calling code-based decode on the Gumbel VQVAE variant signals
`NotImplementedError` for every input and never returns a value. -/
theorem gumbelVQVAEDecodeCode_raises (codeB : List ℕ) :
    gumbelVQVAEDecodeCode codeB = Except.error PyError.notImplementedError
    ∧ ∀ v, gumbelVQVAEDecodeCode codeB ≠ Except.ok v :=
  ⟨rfl, fun _ hv => Except.noConfusion hv⟩

/-! ### GumbelVQVAE.__init__ (vqvae.py lines 135-155) -/

/-- vqvae.py lines 135-155, `GumbelVQVAE.__init__`: after the parent
constructor binds `vqvaeInstanceAttrs`, line 149 executes
`self.loss.n_classes = args.n_embed`, whose first step is the attribute read
`self.loss`; only on success would the remaining lines bind `vocab_size` and
rebind `quantize`. -/
def gumbelVQVAEInit (monitorSet : Bool) : Except PyError (List String) := do
  let _loss ← vqvaeGetattr monitorSet "loss"
  Except.ok (vqvaeInstanceAttrs monitorSet ++ ["vocab_size"])

/-- Claim C9: constructing a `GumbelVQVAE` always raises `AttributeError`:
its constructor reads `self.loss`, but the parent `VQVAE` constructor never
binds a `loss` attribute, whether or not a monitor argument was supplied. -/
theorem gumbelVQVAEInit_attributeError (monitorSet : Bool) :
    gumbelVQVAEInit monitorSet = Except.error (PyError.attributeError "loss")
    ∧ ∀ v, gumbelVQVAEInit monitorSet ≠ Except.ok v := by
  have herr : gumbelVQVAEInit monitorSet
      = Except.error (PyError.attributeError "loss") := by
    cases monitorSet <;> rfl
  exact ⟨herr, fun v hv => by rw [herr] at hv; exact Except.noConfusion hv⟩

/-! ### VQVAE.configure_optimizers (vqvae.py lines 111-115) -/

inductive AdamParams where
  /-- the bound method object `self.parameters` itself, passed uncalled -/
  | boundMethod
  /-- an iterable of parameter tensors, as calling `self.parameters()` yields -/
  | paramList (ps : List String)
  deriving DecidableEq, Repr

/-- `torch.optim.Adam` construction (dependency semantics from
torch/optim/optimizer.py): the `params` argument must be an iterable of
tensors or dicts; a bound-method object is not iterable, so construction
raises `TypeError` before any optimizer state is built. -/
def adamNew (params : AdamParams) (lr : ℚ) : Except PyError (AdamParams × ℚ) :=
  match params with
  | AdamParams.boundMethod =>
      Except.error (PyError.typeError
        "params argument given to the optimizer should be an iterable")
  | AdamParams.paramList ps => Except.ok (AdamParams.paramList ps, lr)

/-- vqvae.py lines 111-115, `VQVAE.configure_optimizers`: passes
`self.parameters` (the bound method itself, not the result of calling
`self.parameters()`) as the parameter collection to `torch.optim.Adam`; the
`ExponentialLR` scheduler construction at line 114 is never reached. -/
def vqvaeConfigureOptimizers (lr : ℚ) :
    Except PyError ((AdamParams × ℚ) × String) := do
  let opt ← adamNew AdamParams.boundMethod lr
  Except.ok (opt, "ExponentialLR")

/-- Claim C10: `VQVAE.configure_optimizers` fails for every instance and
every learning rate: handing the uncalled bound method to the Adam
constructor raises `TypeError`, so no optimizer/scheduler pair is ever
returned. -/
theorem vqvaeConfigureOptimizers_raises (lr : ℚ) :
    vqvaeConfigureOptimizers lr
      = Except.error (PyError.typeError
          "params argument given to the optimizer should be an iterable")
    ∧ ∀ v, vqvaeConfigureOptimizers lr ≠ Except.ok v :=
  ⟨rfl, fun _ hv => Except.noConfusion hv⟩

end DalleLightning
